import Mathlib

/-
Shallow embedding of src/devel/libecl_queue/src/ext_job.c: a mutable job
descriptor (struct ext_job_struct) with allocator, field setters, mapping
and argument-list mutators, and a serializer (ext_job_python_fprintf) that
writes a Python-literal-like record to a FILE stream.

Modelling choices:
 - C strings are Lean String; NULL optional strings are Option String.
 - argv/argc is a single List String (argc = length).
 - The string-keyed hash collaborator (hash_type) is an association list;
   its insert-or-replace contract is modelled from the spec, since hash.c
   is not among the given sources.  Key enumeration order is the list
   order (the spec leaves the order implementation-defined).
 - The FILE stream is a state record: the bytes successfully written, a
   sticky error indicator, a failure oracle deciding whether the n-th
   write attempt fails, and a count of write attempts so far.  fprintf
   ignores failures exactly as the C code does (no return value checked).
-/

namespace ExtJobC

/-- The struct ext_job_struct of ext_job.c. -/
structure ext_job_type where
  priority : Int
  portable_exe : Option String
  init_code : Option String
  target_file : Option String
  stdout_file : Option String
  stdin_file : Option String
  stderr_file : Option String
  argv : List String
  platform_exe : List (String × String)
  environment : List (String × String)

/-- Modelled from the spec: the string-keyed mapping collaborator
(hash_type, whose hash.c source is not among the given files) provides
insert-or-replace by key; mapping keys are unique, and inserting an
existing key replaces its value.  The association-list position of an
existing key is kept; a new key is appended. -/
def hash_insert_hash_owned_ref : List (String × String) → String → String → List (String × String)
  | [], key, value => [(key, value)]
  | (k, v) :: rest, key, value =>
    if k = key then (key, value) :: rest
    else (k, v) :: hash_insert_hash_owned_ref rest key value

/-- hash_alloc from the utility library: a fresh empty mapping. -/
def hash_alloc : List (String × String) := []

/-- ext_job_alloc: fresh descriptor, all optional fields NULL, argv empty,
both hashes freshly allocated, priority stored. -/
def ext_job_alloc (priority : Int) : ext_job_type :=
  { priority := priority
    portable_exe := none
    init_code := none
    stdout_file := none
    target_file := none
    stdin_file := none
    stderr_file := none
    argv := []
    platform_exe := hash_alloc
    environment := hash_alloc }

/-- ext_job_set_portable_exe. -/
def ext_job_set_portable_exe (ext_job : ext_job_type) (portable_exe : String) : ext_job_type :=
  { ext_job with portable_exe := some portable_exe }

/-- ext_job_set_init_code. -/
def ext_job_set_init_code (ext_job : ext_job_type) (init_code : String) : ext_job_type :=
  { ext_job with init_code := some init_code }

/-- ext_job_set_stdout_file. -/
def ext_job_set_stdout_file (ext_job : ext_job_type) (stdout_file : String) : ext_job_type :=
  { ext_job with stdout_file := some stdout_file }

/-- ext_job_set_target_file. -/
def ext_job_set_target_file (ext_job : ext_job_type) (target_file : String) : ext_job_type :=
  { ext_job with target_file := some target_file }

/-- ext_job_set_stdin_file. -/
def ext_job_set_stdin_file (ext_job : ext_job_type) (stdin_file : String) : ext_job_type :=
  { ext_job with stdin_file := some stdin_file }

/-- ext_job_set_stderr_file. -/
def ext_job_set_stderr_file (ext_job : ext_job_type) (stderr_file : String) : ext_job_type :=
  { ext_job with stderr_file := some stderr_file }

/-- ext_job_add_platform_exe: hash_insert_hash_owned_ref on platform_exe. -/
def ext_job_add_platform_exe (ext_job : ext_job_type) (platform exe : String) : ext_job_type :=
  { ext_job with platform_exe := hash_insert_hash_owned_ref ext_job.platform_exe platform exe }

/-- ext_job_add_environment: hash_insert_hash_owned_ref on environment. -/
def ext_job_add_environment (ext_job : ext_job_type) (platform exe : String) : ext_job_type :=
  { ext_job with environment := hash_insert_hash_owned_ref ext_job.environment platform exe }

/-- ext_job_add_arg: realloc argv one slot larger and append the copy of arg. -/
def ext_job_add_arg (ext_job : ext_job_type) (arg : String) : ext_job_type :=
  { ext_job with argv := ext_job.argv ++ [arg] }

/-- A whole sequence of ext_job_add_arg calls, in call order. -/
def ext_job_add_args (ext_job : ext_job_type) (args : List String) : ext_job_type :=
  args.foldl ext_job_add_arg ext_job

/-- The text __fprintf_python_string writes: the quoted id, a colon, then
None for NULL and the double-quoted value otherwise. -/
def __fprintf_python_string (id : String) (value : Option String) : String :=
  ("\"") ++ id ++ ("\" : ") ++
    (match value with
      | none => ("None")
      | some v => ("\"") ++ v ++ ("\""))

/-- The loop body of __fprintf_python_list: each element double-quoted, a
comma after every element but the last. -/
def __fprintf_python_list_body : List String → String
  | [] => ("")
  | [x] => ("\"") ++ x ++ ("\"")
  | x :: y :: rest => ("\"") ++ x ++ ("\"") ++ (",") ++ __fprintf_python_list_body (y :: rest)

/-- The text __fprintf_python_list writes: quoted id, colon, bracketed body. -/
def __fprintf_python_list (id : String) (list : List String) : String :=
  ("\"") ++ id ++ ("\" : ") ++ ("[") ++ __fprintf_python_list_body list ++ ("]")

/-- The loop body of __fprintf_python_hash: key and value double-quoted and
joined by a colon, a comma after every entry but the last, entries in the
key-enumeration order of the mapping. -/
def __fprintf_python_hash_body : List (String × String) → String
  | [] => ("")
  | [(k, v)] => ("\"") ++ k ++ ("\":\"") ++ v ++ ("\"")
  | (k, v) :: e :: rest =>
    ("\"") ++ k ++ ("\":\"") ++ v ++ ("\"") ++ (",") ++ __fprintf_python_hash_body (e :: rest)

/-- The text __fprintf_python_hash writes: quoted id, colon, braced body. -/
def __fprintf_python_hash (id : String) (hash : List (String × String)) : String :=
  ("\"") ++ id ++ ("\" : ") ++ ("\x7b") ++ __fprintf_python_hash_body hash ++ ("\x7d")

/-- __indent writes indent single-space fprintf calls. -/
def __indent (indent : Nat) : List String :=
  List.replicate indent (" ")

/-- The FILE stream state: bytes successfully written so far, the sticky
error indicator, the failure oracle (does the n-th write attempt fail),
and the number of write attempts made so far. -/
structure FILE where
  out : String
  err : Bool
  oracle : Nat → Bool
  writes : Nat

/-- One fprintf call: on failure the error indicator is set and nothing is
appended; on success the text is appended.  The attempt counter always
advances; the caller in ext_job.c never inspects the result. -/
def fprintf (stream : FILE) (text : String) : FILE :=
  if stream.oracle stream.writes then
    { stream with err := true, writes := stream.writes + 1 }
  else
    { stream with out := stream.out ++ text, writes := stream.writes + 1 }

/-- A sequence of fprintf calls, in order. -/
def fprintf_all (stream : FILE) : List String → FILE
  | [] => stream
  | c :: cs => fprintf_all (fprintf stream c) cs

/-- The exact sequence of texts ext_job_python_fprintf passes to fprintf,
in source order: opening brace, then for each of the nine fields its
indentation, its field text and its separator (the __end_line text after
each of the first eight fields, the closing brace and newline after
platform_exe). -/
def ext_job_chunks (ext_job : ext_job_type) : List String :=
  [(" \x7b")]
  ++ __indent 0 ++ [__fprintf_python_string ("portable_exe") ext_job.portable_exe, (",\n")]
  ++ __indent 2 ++ [__fprintf_python_string ("init_code") ext_job.init_code, (",\n")]
  ++ __indent 2 ++ [__fprintf_python_string ("target_file") ext_job.target_file, (",\n")]
  ++ __indent 2 ++ [__fprintf_python_string ("stdout") ext_job.stdout_file, (",\n")]
  ++ __indent 2 ++ [__fprintf_python_string ("stderr") ext_job.stderr_file, (",\n")]
  ++ __indent 2 ++ [__fprintf_python_string ("stdin") ext_job.stdin_file, (",\n")]
  ++ __indent 2 ++ [__fprintf_python_list ("argList") ext_job.argv, (",\n")]
  ++ __indent 2 ++ [__fprintf_python_hash ("environment") ext_job.environment, (",\n")]
  ++ __indent 2 ++ [__fprintf_python_hash ("platform_exe") ext_job.platform_exe, ("\x7d\n")]

/-- ext_job_python_fprintf: the descriptor is taken through a const
pointer and never written; the function performs the fprintf sequence of
ext_job_chunks on the stream.  The unchanged descriptor is returned
alongside the stream to make the absence of mutation explicit. -/
def ext_job_python_fprintf (ext_job : ext_job_type) (stream : FILE) : ext_job_type × FILE :=
  (ext_job, fprintf_all stream (ext_job_chunks ext_job))

/-- Concatenation of a chunk list. -/
def str_concat : List String → String
  | [] => ("")
  | c :: cs => c ++ str_concat cs

/-- The full record as a string: the bytes ext_job_python_fprintf writes
when no write attempt fails. -/
def ext_job_python_fprintf_str (ext_job : ext_job_type) : String :=
  str_concat (ext_job_chunks ext_job)

/-- A stream that never fails, starting empty. -/
def ok_FILE : FILE :=
  { out := (""), err := false, oracle := fun _ => false, writes := 0 }

/-- Does any of the next n write attempts on the stream fail. -/
def any_write_fails (stream : FILE) : Nat → Bool
  | 0 => false
  | n + 1 =>
    stream.oracle stream.writes ||
      any_write_fails { stream with writes := stream.writes + 1 } n

/-- The double-quoted rendering of a string, as the serializer emits it. -/
def python_quote (s : String) : String :=
  ("\"") ++ s ++ ("\"")

/-- The descriptor of the end-to-end example of the spec. -/
def example_job : ext_job_type :=
  ext_job_set_stdout_file
    (ext_job_add_platform_exe
      (ext_job_add_environment
        (ext_job_add_arg
          (ext_job_set_portable_exe (ext_job_alloc 10) ("/bin/eclipse"))
          ("--version"))
        ("F_UFMTENDIAN") ("big"))
      ("x86_64") ("/local/eclipse.exe"))
    ("eclipse.stdout")

/-- The text after the first element of a separated list: separator then
element, repeated.  Reference form used to relate the serializer loops to
String.intercalate. -/
def tail_sep (sep : String) : List String → String
  | [] => ("")
  | a :: as => sep ++ a ++ tail_sep sep as


/-- Merging the two single-space indent writes into the two-space indent. -/
theorem two_spaces (x : String) : (" ") ++ ((" ") ++ x) = ("  ") ++ x := by
  rw [← String.append_assoc]
  have h : ((" ") ++ (" ") : String) = ("  ") := rfl
  rw [h]

/-- The accumulator form of String.intercalate.go. -/
theorem intercalate_go_eq (sep : String) : ∀ (l : List String) (acc : String),
    String.intercalate.go acc sep l = acc ++ tail_sep sep l
  | [], acc => by simp [String.intercalate.go, tail_sep, String.append_empty]
  | a :: as, acc => by
    simp only [String.intercalate.go, tail_sep, intercalate_go_eq sep as, String.append_assoc]

/-- The list-printing loop on a nonempty list: quoted head, then separator
and quoted element for each further element. -/
theorem list_body_cons (x : String) : ∀ (xs : List String),
    __fprintf_python_list_body (x :: xs) = python_quote x ++ tail_sep (",") (xs.map python_quote)
  | [] => by simp [__fprintf_python_list_body, python_quote, tail_sep, String.append_empty]
  | y :: rest => by
    simp only [__fprintf_python_list_body, python_quote, tail_sep, List.map_cons,
      list_body_cons y rest, String.append_assoc]

/-- The list-printing loop emits exactly the comma-intercalation of the
double-quoted elements. -/
theorem list_body_eq : ∀ (l : List String),
    __fprintf_python_list_body l = String.intercalate (",") (l.map python_quote)
  | [] => rfl
  | x :: xs => by
    simp only [list_body_cons, List.map_cons, String.intercalate, intercalate_go_eq]

/-- A sequence of ext_job_add_arg calls appends the arguments in order. -/
theorem add_args_argv : ∀ (l : List String) (j : ext_job_type),
    (ext_job_add_args j l).argv = j.argv ++ l
  | [], j => by simp [ext_job_add_args]
  | a :: as, j => by
    simp only [ext_job_add_args, List.foldl_cons]
    rw [show List.foldl ext_job_add_arg (ext_job_add_arg j a) as =
      ext_job_add_args (ext_job_add_arg j a) as from rfl]
    rw [add_args_argv as (ext_job_add_arg j a)]
    simp [ext_job_add_arg]

/-- A key absent from an association list matches no entry. -/
theorem filter_of_key_not_mem (k : String) : ∀ (l : List (String × String)),
    k ∉ l.map Prod.fst → l.filter (fun e => e.1 == k) = []
  | [], _ => rfl
  | (k', v') :: rest, h => by
    have h1 : ¬ k' = k := by
      intro hk
      exact h (by simp [hk])
    have h2 : k ∉ rest.map Prod.fst := by
      intro hm
      exact h (by simp [hm])
    simp only [List.filter_cons]
    rw [if_neg (by simp [h1])]
    exact filter_of_key_not_mem k rest h2

/-- After insert-or-replace into a mapping with unique keys, the inserted
key matches exactly its one new entry. -/
theorem filter_hash_insert (k v : String) : ∀ (l : List (String × String)),
    (l.map Prod.fst).Nodup →
    (hash_insert_hash_owned_ref l k v).filter (fun e => e.1 == k) = [(k, v)]
  | [], _ => by simp [hash_insert_hash_owned_ref]
  | (k', v') :: rest, h => by
    simp only [List.map_cons, List.nodup_cons] at h
    obtain ⟨hk', hrest⟩ := h
    by_cases hk : k' = k
    · simp only [hash_insert_hash_owned_ref, if_pos hk, List.filter_cons]
      rw [if_pos (by simp)]
      rw [filter_of_key_not_mem k rest (hk ▸ hk')]
    · simp only [hash_insert_hash_owned_ref, if_neg hk, List.filter_cons]
      rw [if_neg (by simp [hk])]
      exact filter_hash_insert k v rest hrest

/-- Insert-or-replace keeps the key list unchanged when the key is present,
and appends the key otherwise. -/
theorem keys_hash_insert (k v : String) : ∀ (l : List (String × String)),
    (hash_insert_hash_owned_ref l k v).map Prod.fst =
      if k ∈ l.map Prod.fst then l.map Prod.fst else l.map Prod.fst ++ [k]
  | [] => by simp [hash_insert_hash_owned_ref]
  | (k', v') :: rest => by
    by_cases hk : k' = k
    · subst hk
      simp [hash_insert_hash_owned_ref]
    · have hk2 : ¬ k = k' := fun h => hk h.symm
      simp only [hash_insert_hash_owned_ref, if_neg hk, List.map_cons,
        keys_hash_insert k v rest, List.mem_cons, hk2, false_or]
      by_cases hm : k ∈ rest.map Prod.fst
      · rw [if_pos hm, if_pos hm]
      · rw [if_neg hm, if_neg hm]
        simp

/-- Insert-or-replace preserves uniqueness of mapping keys. -/
theorem nodup_hash_insert (k v : String) (l : List (String × String))
    (h : (l.map Prod.fst).Nodup) :
    ((hash_insert_hash_owned_ref l k v).map Prod.fst).Nodup := by
  rw [keys_hash_insert]
  by_cases hm : k ∈ l.map Prod.fst
  · simp [hm, h]
  · simp [hm, h, List.nodup_append, List.disjoint_singleton]

/-- One fprintf attempt sets the error indicator exactly when the oracle
fails this attempt, keeping an already-set indicator. -/
theorem fprintf_err (s : FILE) (c : String) : (fprintf s c).err = (s.err || s.oracle s.writes) := by
  unfold fprintf
  split <;> simp_all

/-- One fprintf attempt advances the attempt counter. -/
theorem fprintf_writes (s : FILE) (c : String) : (fprintf s c).writes = s.writes + 1 := by
  unfold fprintf
  split <;> rfl

/-- One fprintf attempt leaves the failure oracle unchanged. -/
theorem fprintf_oracle (s : FILE) (c : String) : (fprintf s c).oracle = s.oracle := by
  unfold fprintf
  split <;> rfl

/-- Whether future write attempts fail depends only on the oracle and the
attempt counter. -/
theorem any_write_fails_congr : ∀ (n : Nat) (s t : FILE), s.oracle = t.oracle → s.writes = t.writes →
    any_write_fails s n = any_write_fails t n
  | 0, _, _, _, _ => rfl
  | n + 1, s, t, h1, h2 => by
    simp only [any_write_fails, h1, h2]
    rw [any_write_fails_congr n ⟨s.out, s.err, t.oracle, t.writes + 1⟩
      ⟨t.out, t.err, t.oracle, t.writes + 1⟩ rfl rfl]

/-- After a sequence of fprintf calls the error indicator is set exactly
when it was set before or some attempt in the sequence failed. -/
theorem fprintf_all_err : ∀ (l : List String) (s : FILE),
    (fprintf_all s l).err = (s.err || any_write_fails s l.length)
  | [], s => by simp [fprintf_all, any_write_fails]
  | c :: cs, s => by
    simp only [fprintf_all, List.length_cons, any_write_fails]
    rw [fprintf_all_err cs (fprintf s c), fprintf_err,
      any_write_fails_congr cs.length (fprintf s c) { s with writes := s.writes + 1 }
        (fprintf_oracle s c) (fprintf_writes s c),
      Bool.or_assoc]

/-- A sequence of fprintf calls leaves the failure oracle unchanged. -/
theorem fprintf_all_oracle : ∀ (l : List String) (s : FILE), (fprintf_all s l).oracle = s.oracle
  | [], _ => rfl
  | c :: cs, s => by
    rw [fprintf_all, fprintf_all_oracle cs (fprintf s c), fprintf_oracle]

/-- On a stream whose oracle never fails, no write attempt fails. -/
theorem any_write_fails_of_ok : ∀ (n : Nat) (s : FILE), (∀ m, s.oracle m = false) →
    any_write_fails s n = false
  | 0, _, _ => rfl
  | n + 1, s, h => by
    simp only [any_write_fails, h, Bool.false_or]
    exact any_write_fails_of_ok n { s with writes := s.writes + 1 } (fun m => h m)

/-- When no attempt of the sequence fails, the whole concatenation is
appended to the stream and the error indicator is untouched. -/
theorem fprintf_all_ok : ∀ (l : List String) (s : FILE),
    any_write_fails s l.length = false →
    (fprintf_all s l).out = s.out ++ str_concat l ∧ (fprintf_all s l).err = s.err
  | [], s, _ => by simp [fprintf_all, str_concat, String.append_empty]
  | c :: cs, s, h => by
    simp only [List.length_cons, any_write_fails, Bool.or_eq_false_iff] at h
    obtain ⟨h1, h2⟩ := h
    have hs : fprintf s c = { s with out := s.out ++ c, writes := s.writes + 1 } := by
      unfold fprintf
      simp [h1]
    have h2' : any_write_fails (fprintf s c) cs.length = false := by
      rw [any_write_fails_congr cs.length (fprintf s c) { s with writes := s.writes + 1 }
        (fprintf_oracle s c) (fprintf_writes s c)]
      exact h2
    obtain ⟨ho, he⟩ := fprintf_all_ok cs (fprintf s c) h2'
    constructor
    · rw [fprintf_all, ho, hs]
      simp [str_concat, String.append_assoc]
    · rw [fprintf_all, he, hs]

set_option maxRecDepth 8000 in
set_option maxHeartbeats 1000000 in
/-- Claim C1: for the call sequence Create(10); SetPortableExe("/bin/eclipse");
AddArgument("--version"); AddEnvironmentVar("F_UFMTENDIAN","big");
AddPlatformExe("x86_64","/local/eclipse.exe"); SetStdoutFile("eclipse.stdout"),
the bytes written by ext_job_python_fprintf equal exactly the example record
of the spec, byte for byte. -/
theorem serialize_example_record :
    ext_job_python_fprintf_str example_job = (" \x7b\"portable_exe\" : \"/bin/eclipse\",\n  \"init_code\" : None,\n  \"target_file\" : None,\n  \"stdout\" : \"eclipse.stdout\",\n  \"stderr\" : None,\n  \"stdin\" : None,\n  \"argList\" : [\"--version\"],\n  \"environment\" : \x7b\"F_UFMTENDIAN\":\"big\"\x7d,\n  \"platform_exe\" : \x7b\"x86_64\":\"/local/eclipse.exe\"\x7d\x7d\n") ∧
    (ext_job_python_fprintf example_job ok_FILE).2.out = (" \x7b\"portable_exe\" : \"/bin/eclipse\",\n  \"init_code\" : None,\n  \"target_file\" : None,\n  \"stdout\" : \"eclipse.stdout\",\n  \"stderr\" : None,\n  \"stdin\" : None,\n  \"argList\" : [\"--version\"],\n  \"environment\" : \x7b\"F_UFMTENDIAN\":\"big\"\x7d,\n  \"platform_exe\" : \x7b\"x86_64\":\"/local/eclipse.exe\"\x7d\x7d\n") :=
  ⟨by decide, by decide⟩

set_option maxHeartbeats 1000000 in
/-- Claim C2: the serializer emits nine fields in the fixed source order
portable_exe, init_code, target_file, stdout, stderr, stdin, argList,
environment, platform_exe; each field before the last is followed by a
comma and a newline (in particular each of the first seven is), the final
field platform_exe has no trailing comma and is followed by the closing
brace and a newline. -/
theorem serialize_field_layout (j : ext_job_type) :
    ext_job_python_fprintf_str j =
      (" \x7b") ++ __fprintf_python_string ("portable_exe") j.portable_exe ++ (",\n") ++
      ("  ") ++ __fprintf_python_string ("init_code") j.init_code ++ (",\n") ++
      ("  ") ++ __fprintf_python_string ("target_file") j.target_file ++ (",\n") ++
      ("  ") ++ __fprintf_python_string ("stdout") j.stdout_file ++ (",\n") ++
      ("  ") ++ __fprintf_python_string ("stderr") j.stderr_file ++ (",\n") ++
      ("  ") ++ __fprintf_python_string ("stdin") j.stdin_file ++ (",\n") ++
      ("  ") ++ __fprintf_python_list ("argList") j.argv ++ (",\n") ++
      ("  ") ++ __fprintf_python_hash ("environment") j.environment ++ (",\n") ++
      ("  ") ++ __fprintf_python_hash ("platform_exe") j.platform_exe ++ ("\x7d\n") := by
  simp only [ext_job_python_fprintf_str, ext_job_chunks, __indent, List.replicate,
    List.cons_append, List.nil_append, List.append_nil, str_concat,
    String.append_assoc, String.append_empty, two_spaces]

set_option maxRecDepth 8000 in
set_option maxHeartbeats 1000000 in
/-- Claim C3: for every priority p, a descriptor fresh from ext_job_alloc p
serializes every optional string field as the token None, argList as the
empty bracket pair, and both mappings as the empty brace pair. -/
theorem serialize_fresh_descriptor (p : Int) :
    ext_job_python_fprintf_str (ext_job_alloc p) = (" \x7b\"portable_exe\" : None,\n  \"init_code\" : None,\n  \"target_file\" : None,\n  \"stdout\" : None,\n  \"stderr\" : None,\n  \"stdin\" : None,\n  \"argList\" : [],\n  \"environment\" : \x7b\x7d,\n  \"platform_exe\" : \x7b\x7d\x7d\n") := rfl

/-- Claim C4: any sequence of ext_job_add_arg calls appends exactly the
argument strings in call order with no deduplication, and the serialized
argList is the bracketed comma-intercalation of the double-quoted
arguments (the empty bracket pair when there are none). -/
theorem add_arg_order_preserved (p : Int) (j : ext_job_type) (l : List String) :
    (ext_job_add_args j l).argv = j.argv ++ l ∧
    (ext_job_add_args (ext_job_alloc p) l).argv = l ∧
    __fprintf_python_list ("argList") l =
      ("\"") ++ ("argList") ++ ("\" : ") ++ ("[") ++
        String.intercalate (",") (l.map python_quote) ++ ("]") := by
  refine ⟨add_args_argv l j, ?_, ?_⟩
  · rw [add_args_argv l (ext_job_alloc p)]
    simp [ext_job_alloc]
  · simp only [__fprintf_python_list, list_body_eq]

/-- Claim C5: on a descriptor whose environment keys are unique, inserting
key k with value v1 and then with value v2 leaves the serialized
environment mapping with exactly one entry for k, whose value is v2, and
the keys stay unique. -/
theorem add_environment_replaces_key (j : ext_job_type) (k v1 v2 : String)
    (h : (j.environment.map Prod.fst).Nodup) :
    ((ext_job_add_environment (ext_job_add_environment j k v1) k v2).environment.filter
        (fun e => e.1 == k)) = [(k, v2)] ∧
    (((ext_job_add_environment (ext_job_add_environment j k v1) k v2).environment.map
        Prod.fst)).Nodup := by
  simp only [ext_job_add_environment]
  exact ⟨filter_hash_insert k v2 _ (nodup_hash_insert k v1 _ h),
    nodup_hash_insert k v2 _ (nodup_hash_insert k v1 _ h)⟩

/-- Witness for claim C5 at a concrete descriptor and key. -/
theorem add_environment_replaces_key_witness :
    ((ext_job_add_environment (ext_job_add_environment (ext_job_alloc 0) ("PATH") ("a"))
        ("PATH") ("b")).environment.filter (fun e => e.1 == ("PATH"))) = [(("PATH"), ("b"))] ∧
    (((ext_job_add_environment (ext_job_add_environment (ext_job_alloc 0) ("PATH") ("a"))
        ("PATH") ("b")).environment.map Prod.fst)).Nodup :=
  add_environment_replaces_key (ext_job_alloc 0) ("PATH") ("a") ("b") (by decide)

/-- Claim C6: calling any optional-field setter with a and then with b
leaves the field holding exactly b, and a held optional field serializes as
the double-quoted value. -/
theorem setters_last_write_wins (j : ext_job_type) (a b : String) :
    (ext_job_set_portable_exe (ext_job_set_portable_exe j a) b).portable_exe = some b ∧
    (ext_job_set_init_code (ext_job_set_init_code j a) b).init_code = some b ∧
    (ext_job_set_stdout_file (ext_job_set_stdout_file j a) b).stdout_file = some b ∧
    (ext_job_set_stderr_file (ext_job_set_stderr_file j a) b).stderr_file = some b ∧
    (ext_job_set_stdin_file (ext_job_set_stdin_file j a) b).stdin_file = some b ∧
    (ext_job_set_target_file (ext_job_set_target_file j a) b).target_file = some b ∧
    (∀ (id v : String),
      __fprintf_python_string id (some v) = ("\"") ++ id ++ ("\" : ") ++ python_quote v) :=
  ⟨rfl, rfl, rfl, rfl, rfl, rfl, fun _ _ => rfl⟩

/-- Claim C7: ext_job_python_fprintf returns the descriptor unchanged, and
on a stream that does not fail, two consecutive calls on the unmodified
descriptor each append the same bytes (byte-identical output). -/
theorem serialize_no_mutation_deterministic (j : ext_job_type) (s : FILE)
    (h : ∀ n, s.oracle n = false) :
    (ext_job_python_fprintf j s).1 = j ∧
    (ext_job_python_fprintf j s).2.out = s.out ++ ext_job_python_fprintf_str j ∧
    (ext_job_python_fprintf (ext_job_python_fprintf j s).1 (ext_job_python_fprintf j s).2).2.out =
      s.out ++ ext_job_python_fprintf_str j ++ ext_job_python_fprintf_str j := by
  have h1 : any_write_fails s (ext_job_chunks j).length = false :=
    any_write_fails_of_ok _ s h
  obtain ⟨ho, _⟩ := fprintf_all_ok (ext_job_chunks j) s h1
  have hor : ∀ n, (fprintf_all s (ext_job_chunks j)).oracle n = false := by
    rw [fprintf_all_oracle]
    exact h
  have h2 : any_write_fails (fprintf_all s (ext_job_chunks j)) (ext_job_chunks j).length = false :=
    any_write_fails_of_ok _ _ hor
  obtain ⟨ho2, _⟩ := fprintf_all_ok (ext_job_chunks j) (fprintf_all s (ext_job_chunks j)) h2
  refine ⟨rfl, ?_, ?_⟩
  · simp only [ext_job_python_fprintf, ext_job_python_fprintf_str]
    exact ho
  · simp only [ext_job_python_fprintf, ext_job_python_fprintf_str]
    rw [ho2, ho]

/-- Witness for claim C7 on the fresh descriptor and the non-failing
stream. -/
theorem serialize_no_mutation_deterministic_witness :
    (ext_job_python_fprintf (ext_job_alloc 0) ok_FILE).1 = ext_job_alloc 0 ∧
    (ext_job_python_fprintf (ext_job_alloc 0) ok_FILE).2.out =
      ok_FILE.out ++ ext_job_python_fprintf_str (ext_job_alloc 0) ∧
    (ext_job_python_fprintf (ext_job_python_fprintf (ext_job_alloc 0) ok_FILE).1
        (ext_job_python_fprintf (ext_job_alloc 0) ok_FILE).2).2.out =
      ok_FILE.out ++ ext_job_python_fprintf_str (ext_job_alloc 0) ++
        ext_job_python_fprintf_str (ext_job_alloc 0) :=
  serialize_no_mutation_deterministic (ext_job_alloc 0) ok_FILE (fun _ => rfl)

/-- Claim C8: serialization fails exactly when the underlying stream
fails: afterwards the stream error indicator is set precisely when it was
already set or some write attempt of the record failed, an already-failed
stream stays failed (no recovery), and when no attempt fails the full
record is appended with the indicator untouched.  All mutators are total
functions of the embedding: under normal memory availability they cannot
fail. -/
theorem serialize_error_propagation (j : ext_job_type) (s : FILE) :
    (ext_job_python_fprintf j s).2.err =
      (s.err || any_write_fails s (ext_job_chunks j).length) ∧
    (s.err = true → (ext_job_python_fprintf j s).2.err = true) ∧
    (any_write_fails s (ext_job_chunks j).length = false →
      (ext_job_python_fprintf j s).2.out = s.out ++ ext_job_python_fprintf_str j ∧
      (ext_job_python_fprintf j s).2.err = s.err) := by
  refine ⟨fprintf_all_err _ s, ?_, ?_⟩
  · intro he
    show (fprintf_all s (ext_job_chunks j)).err = true
    rw [fprintf_all_err _ s, he]
    simp
  · intro hf
    exact fprintf_all_ok _ s hf

/-- Witness for claim C8 on the fresh descriptor and the non-failing
stream. -/
theorem serialize_error_propagation_witness :
    (ext_job_python_fprintf (ext_job_alloc 0) ok_FILE).2.err =
      (ok_FILE.err || any_write_fails ok_FILE (ext_job_chunks (ext_job_alloc 0)).length) ∧
    (ok_FILE.err = true → (ext_job_python_fprintf (ext_job_alloc 0) ok_FILE).2.err = true) ∧
    (any_write_fails ok_FILE (ext_job_chunks (ext_job_alloc 0)).length = false →
      (ext_job_python_fprintf (ext_job_alloc 0) ok_FILE).2.out =
        ok_FILE.out ++ ext_job_python_fprintf_str (ext_job_alloc 0) ∧
      (ext_job_python_fprintf (ext_job_alloc 0) ok_FILE).2.err = ok_FILE.err) :=
  serialize_error_propagation (ext_job_alloc 0) ok_FILE

/-- Claim C9: the serialized record is independent of the stored priority:
two descriptors differing only in priority serialize to identical bytes. -/
theorem serialize_ignores_priority (j : ext_job_type) (p q : Int) :
    ext_job_python_fprintf_str { j with priority := p } =
      ext_job_python_fprintf_str { j with priority := q } := rfl

/-- Claim C10: every mutator modifies only its own target field: each
setter changes only its one optional string, ext_job_add_arg only the
argument list, ext_job_add_platform_exe only the platform_exe mapping,
ext_job_add_environment only the environment mapping, and no mutator
changes the priority. -/
theorem mutators_frame (j : ext_job_type) (a b : String) :
    (ext_job_set_portable_exe j a).priority = j.priority ∧
    (ext_job_set_portable_exe j a).init_code = j.init_code ∧
    (ext_job_set_portable_exe j a).target_file = j.target_file ∧
    (ext_job_set_portable_exe j a).stdout_file = j.stdout_file ∧
    (ext_job_set_portable_exe j a).stdin_file = j.stdin_file ∧
    (ext_job_set_portable_exe j a).stderr_file = j.stderr_file ∧
    (ext_job_set_portable_exe j a).argv = j.argv ∧
    (ext_job_set_portable_exe j a).platform_exe = j.platform_exe ∧
    (ext_job_set_portable_exe j a).environment = j.environment ∧
    (ext_job_set_init_code j a).priority = j.priority ∧
    (ext_job_set_init_code j a).portable_exe = j.portable_exe ∧
    (ext_job_set_init_code j a).target_file = j.target_file ∧
    (ext_job_set_init_code j a).stdout_file = j.stdout_file ∧
    (ext_job_set_init_code j a).stdin_file = j.stdin_file ∧
    (ext_job_set_init_code j a).stderr_file = j.stderr_file ∧
    (ext_job_set_init_code j a).argv = j.argv ∧
    (ext_job_set_init_code j a).platform_exe = j.platform_exe ∧
    (ext_job_set_init_code j a).environment = j.environment ∧
    (ext_job_set_stdout_file j a).priority = j.priority ∧
    (ext_job_set_stdout_file j a).portable_exe = j.portable_exe ∧
    (ext_job_set_stdout_file j a).init_code = j.init_code ∧
    (ext_job_set_stdout_file j a).target_file = j.target_file ∧
    (ext_job_set_stdout_file j a).stdin_file = j.stdin_file ∧
    (ext_job_set_stdout_file j a).stderr_file = j.stderr_file ∧
    (ext_job_set_stdout_file j a).argv = j.argv ∧
    (ext_job_set_stdout_file j a).platform_exe = j.platform_exe ∧
    (ext_job_set_stdout_file j a).environment = j.environment ∧
    (ext_job_set_target_file j a).priority = j.priority ∧
    (ext_job_set_target_file j a).portable_exe = j.portable_exe ∧
    (ext_job_set_target_file j a).init_code = j.init_code ∧
    (ext_job_set_target_file j a).stdout_file = j.stdout_file ∧
    (ext_job_set_target_file j a).stdin_file = j.stdin_file ∧
    (ext_job_set_target_file j a).stderr_file = j.stderr_file ∧
    (ext_job_set_target_file j a).argv = j.argv ∧
    (ext_job_set_target_file j a).platform_exe = j.platform_exe ∧
    (ext_job_set_target_file j a).environment = j.environment ∧
    (ext_job_set_stdin_file j a).priority = j.priority ∧
    (ext_job_set_stdin_file j a).portable_exe = j.portable_exe ∧
    (ext_job_set_stdin_file j a).init_code = j.init_code ∧
    (ext_job_set_stdin_file j a).target_file = j.target_file ∧
    (ext_job_set_stdin_file j a).stdout_file = j.stdout_file ∧
    (ext_job_set_stdin_file j a).stderr_file = j.stderr_file ∧
    (ext_job_set_stdin_file j a).argv = j.argv ∧
    (ext_job_set_stdin_file j a).platform_exe = j.platform_exe ∧
    (ext_job_set_stdin_file j a).environment = j.environment ∧
    (ext_job_set_stderr_file j a).priority = j.priority ∧
    (ext_job_set_stderr_file j a).portable_exe = j.portable_exe ∧
    (ext_job_set_stderr_file j a).init_code = j.init_code ∧
    (ext_job_set_stderr_file j a).target_file = j.target_file ∧
    (ext_job_set_stderr_file j a).stdout_file = j.stdout_file ∧
    (ext_job_set_stderr_file j a).stdin_file = j.stdin_file ∧
    (ext_job_set_stderr_file j a).argv = j.argv ∧
    (ext_job_set_stderr_file j a).platform_exe = j.platform_exe ∧
    (ext_job_set_stderr_file j a).environment = j.environment ∧
    (ext_job_add_arg j a).priority = j.priority ∧
    (ext_job_add_arg j a).portable_exe = j.portable_exe ∧
    (ext_job_add_arg j a).init_code = j.init_code ∧
    (ext_job_add_arg j a).target_file = j.target_file ∧
    (ext_job_add_arg j a).stdout_file = j.stdout_file ∧
    (ext_job_add_arg j a).stdin_file = j.stdin_file ∧
    (ext_job_add_arg j a).stderr_file = j.stderr_file ∧
    (ext_job_add_arg j a).platform_exe = j.platform_exe ∧
    (ext_job_add_arg j a).environment = j.environment ∧
    (ext_job_add_platform_exe j a b).priority = j.priority ∧
    (ext_job_add_platform_exe j a b).portable_exe = j.portable_exe ∧
    (ext_job_add_platform_exe j a b).init_code = j.init_code ∧
    (ext_job_add_platform_exe j a b).target_file = j.target_file ∧
    (ext_job_add_platform_exe j a b).stdout_file = j.stdout_file ∧
    (ext_job_add_platform_exe j a b).stdin_file = j.stdin_file ∧
    (ext_job_add_platform_exe j a b).stderr_file = j.stderr_file ∧
    (ext_job_add_platform_exe j a b).argv = j.argv ∧
    (ext_job_add_platform_exe j a b).environment = j.environment ∧
    (ext_job_add_environment j a b).priority = j.priority ∧
    (ext_job_add_environment j a b).portable_exe = j.portable_exe ∧
    (ext_job_add_environment j a b).init_code = j.init_code ∧
    (ext_job_add_environment j a b).target_file = j.target_file ∧
    (ext_job_add_environment j a b).stdout_file = j.stdout_file ∧
    (ext_job_add_environment j a b).stdin_file = j.stdin_file ∧
    (ext_job_add_environment j a b).stderr_file = j.stderr_file ∧
    (ext_job_add_environment j a b).argv = j.argv ∧
    (ext_job_add_environment j a b).platform_exe = j.platform_exe :=
  ⟨rfl, rfl, rfl, rfl, rfl, rfl, rfl, rfl, rfl, rfl, rfl, rfl, rfl, rfl, rfl, rfl, rfl, rfl, rfl, rfl, rfl, rfl, rfl, rfl, rfl, rfl, rfl, rfl, rfl, rfl, rfl, rfl, rfl, rfl, rfl, rfl, rfl, rfl, rfl, rfl, rfl, rfl, rfl, rfl, rfl, rfl, rfl, rfl, rfl, rfl, rfl, rfl, rfl, rfl, rfl, rfl, rfl, rfl, rfl, rfl, rfl, rfl, rfl, rfl, rfl, rfl, rfl, rfl, rfl, rfl, rfl, rfl, rfl, rfl, rfl, rfl, rfl, rfl, rfl, rfl, rfl⟩

end ExtJobC
